import Mathlib

/-!
Verification of the churnguard retention-chat backend.

The four request handlers (start_conversation, send_message, handle_offer,
get_conversation) are shallowly embedded as pure functions over an explicit
store state.  The DynamoDB tables become three lists (conversations,
messages, offers) with key lookup via `find?` and put-item modelled as
replace-by-id.  Every source of nondeterminism (uuid4, utcnow, random.choice,
random.random) is passed in explicitly through an environment record, and the
swallowed-exception paths of the store helpers in send_message.py are made
explicit through a record of per-operation fault flags.  Constant CORS
headers and the JSON wire format are elided: response bodies are modelled
structurally.
-/

namespace ChurnGuard

/-- Conversation record (data model of the conversations table). -/
structure Conversation where
  id : String
  userId : String
  subscriptionId : String
  status : String
  outcome : Option String
  reason : String
  reasonText : String
  createdAt : String
  updatedAt : String
deriving DecidableEq, Repr

/-- Message record (data model of the messages table). -/
structure Message where
  id : String
  conversationId : String
  content : String
  sender : String
  timestamp : String
deriving DecidableEq, Repr

/-- Savings block of an offer (monthly / total amounts). -/
structure Savings where
  monthly : ℚ
  total : ℚ
deriving DecidableEq, Repr

/-- Type-specific numeric fields of an offer; absent keys are `none`. -/
structure OfferDetails where
  originalPrice : Option ℚ
  newPrice : Option ℚ
  freeMonths : Option ℚ
  pauseDuration : Option ℚ
deriving DecidableEq, Repr

/-- Offer record (data model of the offers table).  `updatedAt` is absent at
creation and added by the offer handler's update_item. -/
structure Offer where
  id : String
  conversationId : String
  type : String
  title : String
  description : String
  savings : Savings
  details : OfferDetails
  terms : List String
  expiresAt : String
  createdAt : String
  status : String
  updatedAt : Option String
deriving DecidableEq, Repr

/-- The shared store: the three DynamoDB tables as lists of records. -/
structure Store where
  conversations : List Conversation
  messages : List Message
  offers : List Offer
deriving DecidableEq, Repr

/-- conversations_table.get_item(Key=\x7b'id': id\x7d). -/
def lookupConversation (s : Store) (id : String) : Option Conversation :=
  s.conversations.find? (fun c => c.id == id)

/-- conversations_table.put_item: unconditional replace-by-key upsert. -/
def putConversation (s : Store) (item : Conversation) : Store :=
  { s with conversations := s.conversations.filter (fun c => c.id ≠ item.id) ++ [item] }

/-- conversations_table.update_item SET updatedAt (send_message.py line 76). -/
def touchConversation (s : Store) (id : String) (timestamp : String) : Store :=
  { s with conversations :=
      s.conversations.map (fun c => if c.id = id then { c with updatedAt := timestamp } else c) }

/-- conversations_table.update_item SET status, outcome, updatedAt
(handle_offer.py line 73). -/
def updateConversationStatus (s : Store) (id status : String) (outcome : Option String)
    (timestamp : String) : Store :=
  { s with conversations :=
      s.conversations.map (fun c =>
        if c.id = id then { c with status := status, outcome := outcome, updatedAt := timestamp }
        else c) }

/-- messages_table.put_item: replace-by-key upsert. -/
def putMessage (s : Store) (item : Message) : Store :=
  { s with messages := s.messages.filter (fun m => m.id ≠ item.id) ++ [item] }

/-- messages_table.query on ConversationIdIndex: all messages of a conversation. -/
def messagesByConversation (s : Store) (conversationId : String) : List Message :=
  s.messages.filter (fun m => m.conversationId == conversationId)

/-- The Count of the ConversationIdIndex query (send_message.py line 120). -/
def countMessagesByConversation (s : Store) (conversationId : String) : Nat :=
  (messagesByConversation s conversationId).length

/-- offers_table.get_item(Key=\x7b'id': id\x7d). -/
def lookupOffer (s : Store) (id : String) : Option Offer :=
  s.offers.find? (fun o => o.id == id)

/-- offers_table.put_item: replace-by-key upsert. -/
def putOffer (s : Store) (item : Offer) : Store :=
  { s with offers := s.offers.filter (fun o => o.id ≠ item.id) ++ [item] }

/-- offers_table.update_item SET status, updatedAt (handle_offer.py line 59). -/
def updateOfferStatus (s : Store) (id status : String) (timestamp : String) : Store :=
  { s with offers :=
      s.offers.map (fun o =>
        if o.id = id then { o with status := status, updatedAt := some timestamp } else o) }

/-- offers_table.query on ConversationIdIndex: all offers of a conversation. -/
def offersByConversation (s : Store) (conversationId : String) : List Offer :=
  s.offers.filter (fun o => o.conversationId == conversationId)

/-- Boolean substring test on character lists: Python's `needle in hay`. -/
def hasSubstr (needle : List Char) : List Char → Bool
  | [] => needle.isEmpty
  | c :: t => needle.isPrefixOf (c :: t) || hasSubstr needle t

/-- Python `needle in hay` on strings. -/
def strContains (hay needle : String) : Bool :=
  hasSubstr needle.toList hay.toList

/-- Python str.lower(): lowercase character by character. -/
def lowerString (s : String) : String :=
  ⟨s.data.map Char.toLower⟩

/-- random.choice from a fixed non-empty pool, determinized by an index. -/
def pickFrom (pool : List String) (choice : Nat) : String :=
  pool.getD (choice % pool.length) ""

/-- generate_initial_message of start_conversation.py: deterministic template
lookup by reason, interpolating reason_text in the `other` and default cases. -/
def generate_initial_message (reason : String) (reason_text : String) : String :=
  if reason = "too_expensive" then
    "I understand that cost is a concern. Let me see what special offers I can provide to make this more affordable for you."
  else if reason = "not_using" then
    "I hear you - sometimes we sign up for things and don't use them as much as expected. Let me show you some options that might work better."
  else if reason = "technical_issues" then
    "I'm sorry you're experiencing technical difficulties. Let me help resolve those issues and see what we can do to improve your experience."
  else if reason = "found_alternative" then
    "I understand you've found another option. Before you go, let me show you some exclusive benefits that might change your mind."
  else if reason = "other" then
    "Thank you for sharing that with me: " ++ reason_text ++ ". I'd like to understand your concerns better and see how we can address them."
  else
    "I understand your concerns about: " ++ reason_text ++ ". Let me see what I can do to help address this situation."

/-- generate_ai_response of send_message.py: keyword-bucket classification of
the lowercased message, then random.choice (determinized by `choice`) from the
bucket's pool. -/
def generate_ai_response (user_message : String) (choice : Nat) : String :=
  let lower := lowerString user_message
  if [ "expensive", "cost", "money", "afford", "price"].any (fun w => strContains lower w) then
    pickFrom
      [ "I completely understand that budget is important. Let me see what special pricing options I can offer you.",
        "Cost is definitely a valid concern. I have some exclusive discounts that might help make this more affordable.",
        "I hear you on the pricing. Let me check what promotional offers are available for valued customers like you."] choice
  else if [ "technical", "bug", "error", "problem", "issue"].any (fun w => strContains lower w) then
    pickFrom
      [ "I'm sorry you're experiencing technical difficulties. Let me help resolve those issues and offer you something for the inconvenience.",
        "Technical problems can be really frustrating. I want to make this right for you with both a solution and a special offer.",
        "I apologize for the technical issues. Let me see how we can fix this and provide you with some compensation."] choice
  else if [ "time", "busy", "use", "using"].any (fun w => strContains lower w) then
    pickFrom
      [ "I understand that life gets busy and priorities change. Let me show you some flexible options that might work better for your schedule.",
        "That makes perfect sense. Maybe we can find a plan that better fits your current lifestyle and usage patterns.",
        "I totally get that - sometimes our needs change. Let me offer you some alternatives that might be more suitable."] choice
  else if [ "competitor", "alternative", "found", "better"].any (fun w => strContains lower w) then
    pickFrom
      [ "I understand you're exploring other options. Before you decide, let me show you some exclusive benefits that our competitors don't offer.",
        "That's completely understandable. I'd love to show you some unique features and offers that might change your perspective.",
        "I appreciate you being upfront about that. Let me present some special advantages that are only available to our existing customers."] choice
  else
    pickFrom
      [ "I really appreciate you sharing that with me. Let me see what I can do to address your concerns.",
        "Thank you for explaining your situation. I want to find the best solution for you.",
        "I hear what you're saying, and I want to make sure we find something that works for you.",
        "That's valuable feedback. Let me see what options I have available to help with your situation."] choice

/-- should_generate_offer of send_message.py; the random.random() draw is the
explicit input `r` in [0,1). -/
def should_generate_offer (message_count : Nat) (user_message : String) (r : ℚ) : Bool :=
  if message_count < 4 then
    false
  else
    let lower := lowerString user_message
    if [ "expensive", "cost", "technical", "problem", "issue", "better", "competitor"].any
        (fun w => strContains lower w) then
      r > 0.2
    else
      r > 0.4

/-- Response bodies, structurally; the JSON wire format and the constant CORS
headers are elided.  Success constructors carry the `data` payload of the
corresponding handler; `errorMsg` carries the `error` string. -/
inductive ResponseBody where
  | errorMsg (error : String)
  | conversationData (conversation : Conversation) (messages : List Message)
  | conversationFull (conversation : Conversation) (messages : List Message) (offers : List Offer)
  | messageData (message : Message) (offer : Option Offer)
  | offerResult (outcome : String) (message : Message)
deriving DecidableEq, Repr

/-- An HTTP-style response: status code plus structured body. -/
structure ApiResponse where
  statusCode : Nat
  body : ResponseBody
deriving DecidableEq, Repr

/-- create_response, shared shape of all four modules. -/
def create_response (status_code : Nat) (body : ResponseBody) : ApiResponse :=
  ⟨status_code, body⟩

/-- Parsed request body of start_conversation; a `none` field is absent. -/
structure StartBody where
  userId : Option String
  subscriptionId : Option String
  reason : Option String
  reasonText : Option String
deriving DecidableEq, Repr

/-- Parsed request body of send_message. -/
structure SendBody where
  conversationId : Option String
  message : Option String
  userId : Option String
deriving DecidableEq, Repr

/-- Parsed request body of handle_offer. -/
structure OfferBody where
  conversationId : Option String
  offerId : Option String
  action : Option String
  userId : Option String
deriving DecidableEq, Repr

/-- Environment for one start_conversation run: the uuid4 and utcnow draws. -/
structure StartEnv where
  conversationId : String
  messageId : String
  timestamp : String
deriving DecidableEq, Repr

/-- Environment for one send_message run: uuid4 draws, utcnow timestamps,
and the random draws (reply choice, offer eligibility draw, offer choice). -/
structure SendEnv where
  userMessageId : String
  aiMessageId : String
  timestamp : String
  replyChoice : Nat
  offerDraw : ℚ
  offerId : String
  offerTimestamp : String
  offerExpiresAt : String
  offerChoice : Nat
deriving DecidableEq, Repr

/-- Environment for one handle_offer run. -/
structure OfferEnv where
  messageId : String
  timestamp : String
  replyChoice : Nat
deriving DecidableEq, Repr

/-- Per-operation store fault flags for one send_message run.  A true flag
means the corresponding boto3 call raises.  Faults of get_conversation and
get_message_count are swallowed inside those helpers (send_message.py lines
109-110 and 121-122); faults of the put/update calls escape to the handler's
catch-all except block. -/
structure Faults where
  getConversationFails : Bool
  countFails : Bool
  putUserMessageFails : Bool
  putAiMessageFails : Bool
  putOfferFails : Bool
  updateConversationFails : Bool
deriving DecidableEq, Repr

/-- The fault-free run: every store operation succeeds. -/
def noFaults : Faults :=
  ⟨false, false, false, false, false, false⟩

/-- get_conversation of send_message.py: ownership-checking lookup; any
store exception is swallowed and turned into `none`. -/
def get_conversation (f : Faults) (s : Store) (conversation_id user_id : String) :
    Option Conversation :=
  if f.getConversationFails then none
  else
    match lookupConversation s conversation_id with
    | some conversation => if conversation.userId = user_id then some conversation else none
    | none => none

/-- get_message_count of send_message.py: index-query count; any store
exception is swallowed and turned into 0. -/
def get_message_count (f : Faults) (s : Store) (conversation_id : String) : Nat :=
  if f.countFails then 0 else countMessagesByConversation s conversation_id

/-- One static offer candidate of generate_retention_offer. -/
structure OfferCandidate where
  type : String
  title : String
  description : String
  savings : Savings
  details : OfferDetails
deriving DecidableEq, Repr

/-- random.choice over a 2-element candidate list, determinized by an index. -/
def pickCandidate (pair : OfferCandidate × OfferCandidate) (choice : Nat) : OfferCandidate :=
  if choice % 2 = 0 then pair.1 else pair.2

/-- generate_retention_offer of send_message.py: reason-keyed pair of static
candidates, one chosen by `choice`, materialized with fresh id, timestamps and
pending status. -/
def generate_retention_offer (offer_id timestamp expires_at : String) (choice : Nat)
    (conversation_id : String) (conversation : Conversation) : Offer :=
  let reason := conversation.reason
  let offer_types : OfferCandidate × OfferCandidate :=
    if reason = "too_expensive" then
      (⟨ "discount", "50% Off for 3 Months",
         "Get 50% off your subscription for the next 3 months, then continue at the regular price.",
         ⟨15, 45⟩, ⟨some 29.99, some 14.99, none, none⟩⟩,
       ⟨ "discount", "2 Months Free",
         "Get 2 months completely free, then resume your regular billing cycle.",
         ⟨30, 60⟩, ⟨some 29.99, none, some 2, none⟩⟩)
    else if reason = "technical_issues" then
      (⟨ "discount", "1 Month Free + Priority Support",
         "Get 1 month free and priority technical support to resolve any issues.",
         ⟨30, 30⟩, ⟨some 29.99, none, some 1, none⟩⟩,
       ⟨ "pause", "Pause + Technical Resolution",
         "Pause your subscription while we resolve technical issues, then resume with 1 month free.",
         ⟨30, 30⟩, ⟨none, none, some 1, some 1⟩⟩)
    else if reason = "not_using" then
      (⟨ "pause", "Pause for 3 Months",
         "Pause your subscription for up to 3 months and resume whenever you're ready.",
         ⟨30, 90⟩, ⟨none, none, none, some 3⟩⟩,
       ⟨ "discount", "70% Off for 6 Months",
         "Try us again at 70% off for 6 months - perfect for getting back into the habit.",
         ⟨21, 126⟩, ⟨some 29.99, some 8.99, none, none⟩⟩)
    else
      (⟨ "discount", "40% Off for 4 Months",
         "Get 40% off your subscription for the next 4 months.",
         ⟨12, 48⟩, ⟨some 29.99, some 17.99, none, none⟩⟩,
       ⟨ "pause", "Flexible Pause Option",
         "Pause your subscription for up to 2 months and resume when convenient.",
         ⟨30, 60⟩, ⟨none, none, none, some 2⟩⟩)
  let selected_offer := pickCandidate offer_types choice
  { id := offer_id
    conversationId := conversation_id
    type := selected_offer.type
    title := selected_offer.title
    description := selected_offer.description
    savings := selected_offer.savings
    details := selected_offer.details
    terms :=
      [ "Offer valid for existing customers only",
        "Cannot be combined with other offers",
        "Subscription will auto-renew at regular price after promotional period"]
    expiresAt := expires_at
    createdAt := timestamp
    status := "pending"
    updatedAt := none }

/-- The send_message handler (send_message.py `handler`). -/
def send_message_handler (f : Faults) (env : SendEnv) (event : Option SendBody) (s : Store) :
    ApiResponse × Store :=
  match event with
  | none => (create_response 400 (.errorMsg "Missing request body"), s)
  | some body =>
    match body.conversationId, body.message, body.userId with
    | none, _, _ => (create_response 400 (.errorMsg "Missing required field: conversationId"), s)
    | some _, none, _ => (create_response 400 (.errorMsg "Missing required field: message"), s)
    | some _, some _, none => (create_response 400 (.errorMsg "Missing required field: userId"), s)
    | some conversation_id, some user_message, some user_id =>
      match get_conversation f s conversation_id user_id with
      | none => (create_response 404 (.errorMsg "Conversation not found"), s)
      | some conversation =>
        let timestamp := env.timestamp
        let user_message_item : Message :=
          ⟨env.userMessageId, conversation_id, user_message, "user", timestamp⟩
        if f.putUserMessageFails then (create_response 500 (.errorMsg "Internal server error"), s)
        else
          let s1 := putMessage s user_message_item
          let ai_response := generate_ai_response user_message env.replyChoice
          let ai_message_item : Message :=
            ⟨env.aiMessageId, conversation_id, ai_response, "ai", timestamp⟩
          if f.putAiMessageFails then
            (create_response 500 (.errorMsg "Internal server error"), s1)
          else
            let s2 := putMessage s1 ai_message_item
            let message_count := get_message_count f s2 conversation_id
            let offer : Option Offer :=
              if should_generate_offer message_count user_message env.offerDraw then
                some (generate_retention_offer env.offerId env.offerTimestamp env.offerExpiresAt
                  env.offerChoice conversation_id conversation)
              else none
            match offer with
            | some o =>
              if f.putOfferFails then
                (create_response 500 (.errorMsg "Internal server error"), s2)
              else
                let s3 := putOffer s2 o
                if f.updateConversationFails then
                  (create_response 500 (.errorMsg "Internal server error"), s3)
                else
                  let s4 := touchConversation s3 conversation_id timestamp
                  (create_response 200 (.messageData ai_message_item (some o)), s4)
            | none =>
              if f.updateConversationFails then
                (create_response 500 (.errorMsg "Internal server error"), s2)
              else
                let s4 := touchConversation s2 conversation_id timestamp
                (create_response 200 (.messageData ai_message_item none), s4)

/-- Observation of the send_message handler: the message_count value the
handler passes to should_generate_offer (send_message.py lines 69-70), `none`
when the run returns before reaching that call.  Mirrors the handler's control
flow up to the count query. -/
def sendMessageCountUsed (f : Faults) (env : SendEnv) (event : Option SendBody) (s : Store) :
    Option Nat :=
  match event with
  | none => none
  | some body =>
    match body.conversationId, body.message, body.userId with
    | none, _, _ => none
    | some _, none, _ => none
    | some _, some _, none => none
    | some conversation_id, some user_message, some user_id =>
      match get_conversation f s conversation_id user_id with
      | none => none
      | some _ =>
        if f.putUserMessageFails then none
        else
          let s1 := putMessage s
            ⟨env.userMessageId, conversation_id, user_message, "user", env.timestamp⟩
          if f.putAiMessageFails then none
          else
            let s2 := putMessage s1
              ⟨env.aiMessageId, conversation_id,
                generate_ai_response user_message env.replyChoice, "ai", env.timestamp⟩
            some (get_message_count f s2 conversation_id)

/-- The start_conversation handler (start_conversation.py `handler`). -/
def start_conversation_handler (env : StartEnv) (event : Option StartBody) (s : Store) :
    ApiResponse × Store :=
  match event with
  | none => (create_response 400 (.errorMsg "Missing request body"), s)
  | some body =>
    match body.userId, body.subscriptionId, body.reason, body.reasonText with
    | none, _, _, _ => (create_response 400 (.errorMsg "Missing required field: userId"), s)
    | some _, none, _, _ =>
      (create_response 400 (.errorMsg "Missing required field: subscriptionId"), s)
    | some _, some _, none, _ => (create_response 400 (.errorMsg "Missing required field: reason"), s)
    | some _, some _, some _, none =>
      (create_response 400 (.errorMsg "Missing required field: reasonText"), s)
    | some user_id, some subscription_id, some reason, some reason_text =>
      let timestamp := env.timestamp
      let conversation_item : Conversation :=
        ⟨env.conversationId, user_id, subscription_id, "active", none, reason, reason_text,
          timestamp, timestamp⟩
      let ai_message := generate_initial_message reason reason_text
      let message_item : Message := ⟨env.messageId, env.conversationId, ai_message, "ai", timestamp⟩
      let s1 := putConversation s conversation_item
      let s2 := putMessage s1 message_item
      (create_response 200 (.conversationData conversation_item [message_item]), s2)

/-- generate_final_message of handle_offer.py: accept templates interpolate
the lowercased offer title; reject templates are fixed. -/
def generate_final_message (action : String) (offer : Offer) (choice : Nat) : String :=
  if action = "accept" then
    let offer_title := offer.title
    pickFrom
      [ "Wonderful! I'm so glad we could work this out. Your " ++ lowerString offer_title ++
          " is now active on your account. Thank you for staying with us!",
        "Excellent choice! Your " ++ lowerString offer_title ++
          " has been applied to your account. We really appreciate your continued loyalty.",
        "Perfect! I've activated your " ++ lowerString offer_title ++
          ". You should see the changes reflected in your next billing cycle. Thanks for giving us another chance!",
        "Great news! Your " ++ lowerString offer_title ++
          " is now live. We're thrilled to have you continue as part of our community!"] choice
  else
    pickFrom
      [ "I understand, and I respect your decision. Your cancellation will be processed as requested. We're sorry to see you go, but you're always welcome back.",
        "I completely understand. We'll proceed with your cancellation. Thank you for giving us the opportunity to try to address your concerns.",
        "No problem at all - I appreciate you taking the time to consider our offer. Your cancellation will be processed, and we hope to see you again in the future.",
        "That's perfectly fine. We'll go ahead with the cancellation as you requested. Thank you for being a customer, and we wish you all the best."] choice

/-- The handle_offer handler (handle_offer.py `handler`). -/
def handle_offer_handler (env : OfferEnv) (event : Option OfferBody) (s : Store) :
    ApiResponse × Store :=
  match event with
  | none => (create_response 400 (.errorMsg "Missing request body"), s)
  | some body =>
    match body.conversationId, body.offerId, body.action, body.userId with
    | none, _, _, _ => (create_response 400 (.errorMsg "Missing required field: conversationId"), s)
    | some _, none, _, _ => (create_response 400 (.errorMsg "Missing required field: offerId"), s)
    | some _, some _, none, _ => (create_response 400 (.errorMsg "Missing required field: action"), s)
    | some _, some _, some _, none =>
      (create_response 400 (.errorMsg "Missing required field: userId"), s)
    | some conversation_id, some offer_id, some action, some user_id =>
      if ¬ (action = "accept" ∨ action = "reject") then
        (create_response 400 (.errorMsg "Action must be \"accept\" or \"reject\""), s)
      else
        match lookupConversation s conversation_id with
        | none => (create_response 404 (.errorMsg "Conversation not found"), s)
        | some conversation =>
          if conversation.userId ≠ user_id then
            (create_response 404 (.errorMsg "Conversation not found"), s)
          else
            match lookupOffer s offer_id with
            | none => (create_response 404 (.errorMsg "Offer not found"), s)
            | some offer =>
              if offer.conversationId ≠ conversation_id then
                (create_response 404 (.errorMsg "Offer not found"), s)
              else if offer.status ≠ "pending" then
                (create_response 400 (.errorMsg "Offer is no longer available"), s)
              else
                let timestamp := env.timestamp
                let s1 := updateOfferStatus s offer_id
                  (if action = "accept" then "accepted" else "rejected") timestamp
                let outcome := if action = "accept" then "retained" else "cancelled"
                let s2 := updateConversationStatus s1 conversation_id "completed" (some outcome)
                  timestamp
                let final_message := generate_final_message action offer env.replyChoice
                let final_message_item : Message :=
                  ⟨env.messageId, conversation_id, final_message, "ai", timestamp⟩
                let s3 := putMessage s2 final_message_item
                (create_response 200 (.offerResult outcome final_message_item), s3)

/-- Insertion step of the ascending-timestamp sort of the read handler. -/
def insertByTimestamp (m : Message) : List Message → List Message
  | [] => [m]
  | x :: xs => if m.timestamp ≤ x.timestamp then m :: x :: xs else x :: insertByTimestamp m xs

/-- The read handler's ScanIndexForward=True query: messages of the
conversation in ascending timestamp order. -/
def sortByTimestamp (l : List Message) : List Message :=
  l.foldr insertByTimestamp []

/-- The get_conversation handler (get_conversation.py `handler`); the event is
the `id` path parameter, `none` when absent.  An empty id is falsy in the
source and also rejected. -/
def get_conversation_handler (event : Option String) (s : Store) : ApiResponse × Store :=
  match event with
  | none => (create_response 400 (.errorMsg "Missing conversation ID"), s)
  | some conversation_id =>
    if conversation_id = "" then (create_response 400 (.errorMsg "Missing conversation ID"), s)
    else
      match lookupConversation s conversation_id with
      | none => (create_response 404 (.errorMsg "Conversation not found"), s)
      | some conversation =>
        let messages := sortByTimestamp (messagesByConversation s conversation_id)
        let offers := offersByConversation s conversation_id
        (create_response 200 (.conversationFull conversation messages offers), s)

/-! Helper lemmas about the store primitives. -/

/-- A conversation just put is found again under its id. -/
theorem lookupConversation_putConversation (s : Store) (c : Conversation) :
    lookupConversation (putConversation s c) c.id = some c := by
  unfold lookupConversation putConversation
  rw [List.find?_append]
  have h1 : (s.conversations.filter (fun x => x.id ≠ c.id)).find? (fun x => x.id == c.id)
      = none := by
    rw [List.find?_eq_none]
    intro x hx
    have hx2 := (List.mem_filter.mp hx).2
    simp only [ne_eq, decide_not, Bool.not_eq_true', decide_eq_false_iff_not] at hx2
    simp [hx2]
  rw [h1]
  simp

/-- Touching a conversation's updatedAt rewrites exactly the found record. -/
theorem lookupConversation_touch (s : Store) (cid ts : String) (c : Conversation)
    (h : lookupConversation s cid = some c) :
    lookupConversation (touchConversation s cid ts) cid = some { c with updatedAt := ts } := by
  unfold lookupConversation touchConversation at *
  rw [List.find?_map]
  have hpg : ((fun x : Conversation => x.id == cid) ∘
      (fun x => if x.id = cid then { x with updatedAt := ts } else x))
      = (fun x : Conversation => x.id == cid) := by
    funext x
    by_cases hx : x.id = cid <;> simp [Function.comp, hx]
  rw [hpg, h]
  have hc : c.id = cid := by simpa using List.find?_some h
  simp [hc]

/-- The status/outcome close-out rewrites exactly the found record. -/
theorem lookupConversation_update (s : Store) (cid st ts : String) (out : Option String)
    (c : Conversation) (h : lookupConversation s cid = some c) :
    lookupConversation (updateConversationStatus s cid st out ts) cid =
      some { c with status := st, outcome := out, updatedAt := ts } := by
  unfold lookupConversation updateConversationStatus at *
  rw [List.find?_map]
  have hpg : ((fun x : Conversation => x.id == cid) ∘
      (fun x => if x.id = cid then { x with status := st, outcome := out, updatedAt := ts } else x))
      = (fun x : Conversation => x.id == cid) := by
    funext x
    by_cases hx : x.id = cid <;> simp [Function.comp, hx]
  rw [hpg, h]
  have hc : c.id = cid := by simpa using List.find?_some h
  simp [hc]

/-- The offer status update rewrites exactly the found record. -/
theorem lookupOffer_update (s : Store) (oid st ts : String) (o : Offer)
    (h : lookupOffer s oid = some o) :
    lookupOffer (updateOfferStatus s oid st ts) oid =
      some { o with status := st, updatedAt := some ts } := by
  unfold lookupOffer updateOfferStatus at *
  rw [List.find?_map]
  have hpg : ((fun x : Offer => x.id == oid) ∘
      (fun x => if x.id = oid then { x with status := st, updatedAt := some ts } else x))
      = (fun x : Offer => x.id == oid) := by
    funext x
    by_cases hx : x.id = oid <;> simp [Function.comp, hx]
  rw [hpg, h]
  have hc : o.id = oid := by simpa using List.find?_some h
  simp [hc]

/-- Putting a message with a fresh id raises the conversation's count by one. -/
theorem count_putMessage_fresh (s : Store) (m : Message) (cid : String)
    (hfresh : ∀ m' ∈ s.messages, m'.id ≠ m.id) (hcid : m.conversationId = cid) :
    countMessagesByConversation (putMessage s m) cid =
      countMessagesByConversation s cid + 1 := by
  unfold countMessagesByConversation messagesByConversation putMessage
  have hself : s.messages.filter (fun m' => m'.id ≠ m.id) = s.messages := by
    rw [List.filter_eq_self]
    intro m' hm'
    simpa using hfresh m' hm'
  rw [hself, List.filter_append, List.length_append]
  simp only [List.filter_cons, List.filter_nil]
  simp [hcid]

/-- The trigger-word classification of should_generate_offer: the lowercased
message contains one of the seven trigger keywords. -/
def hasTriggerWord (t : String) : Bool :=
  [ "expensive", "cost", "technical", "problem", "issue", "better", "competitor"].any
    (fun w => strContains (lowerString t) w)

/-- The five known values of the cancellation-reason enum. -/
def knownReasons : List String :=
  [ "too_expensive", "not_using", "technical_issues", "found_alternative", "other"]

/-- Claim C5: should_generate_offer returns false for every message text when
the message count is below 4; for count at least 4, with the uniform draw r
explicit, it returns true iff r > 0.2 when the lowercased message contains a
trigger word and iff r > 0.4 otherwise. -/
theorem claim_C5 :
    (∀ (n : Nat) (t : String) (r : ℚ), n < 4 → should_generate_offer n t r = false) ∧
    (∀ (n : Nat) (t : String) (r : ℚ), 4 ≤ n → hasTriggerWord t = true →
      (should_generate_offer n t r = true ↔ r > 0.2)) ∧
    (∀ (n : Nat) (t : String) (r : ℚ), 4 ≤ n → hasTriggerWord t = false →
      (should_generate_offer n t r = true ↔ r > 0.4)) := by
  refine ⟨?_, ?_, ?_⟩
  · intro n t r hn
    simp [should_generate_offer, hn]
  · intro n t r hn ht
    have hn4 : ¬ n < 4 := by omega
    simp only [should_generate_offer, hasTriggerWord] at *
    simp [hn4, ht]
  · intro n t r hn ht
    have hn4 : ¬ n < 4 := by omega
    simp only [should_generate_offer, hasTriggerWord] at *
    simp [hn4, ht]

/-- Witness for claim C5 at concrete inputs. -/
theorem claim_C5_witness :
    should_generate_offer 3 "this is expensive" (9 / 10) = false ∧
    (should_generate_offer 5 "this is expensive" (1 / 2) = true ↔ (1 / 2 : ℚ) > 0.2) ∧
    (should_generate_offer 5 "hello there" (1 / 2) = true ↔ (1 / 2 : ℚ) > 0.4) :=
  ⟨claim_C5.1 3 "this is expensive" (9 / 10) (by decide),
   claim_C5.2.1 5 "this is expensive" (1 / 2) (by decide) (by decide),
   claim_C5.2.2 5 "hello there" (1 / 2) (by decide) (by decide)⟩

/-- Claim C9: generate_initial_message is deterministic in (reason,
reasonText) — immediate for the pure embedded function — and for reason
`other` as well as for every unrecognized reason the result contains
reasonText verbatim as a substring. -/
theorem claim_C9 :
    (∀ r t t' : String, t = t' → generate_initial_message r t = generate_initial_message r t') ∧
    (∀ t : String, ∃ pre suf : String,
      generate_initial_message "other" t = pre ++ t ++ suf) ∧
    (∀ r t : String, r ∉ knownReasons → ∃ pre suf : String,
      generate_initial_message r t = pre ++ t ++ suf) := by
  refine ⟨?_, ?_, ?_⟩
  · intro r t t' h
    rw [h]
  · intro t
    refine ⟨ "Thank you for sharing that with me: ",
      ". I'd like to understand your concerns better and see how we can address them.", ?_⟩
    rfl
  · intro r t hr
    simp only [knownReasons, List.mem_cons, List.not_mem_nil, or_false, not_or] at hr
    obtain ⟨h1, h2, h3, h4, h5⟩ := hr
    refine ⟨ "I understand your concerns about: ",
      ". Let me see what I can do to help address this situation.", ?_⟩
    simp [generate_initial_message, h1, h2, h3, h4, h5]

/-- Witness for claim C9 at concrete inputs. -/
theorem claim_C9_witness :
    (generate_initial_message "other" "abc" = generate_initial_message "other" "abc") ∧
    (∃ pre suf : String, generate_initial_message "other" "abc" = pre ++ "abc" ++ suf) ∧
    (∃ pre suf : String, generate_initial_message "weird_reason" "abc" = pre ++ "abc" ++ suf) :=
  ⟨claim_C9.1 "other" "abc" "abc" rfl, claim_C9.2.1 "abc",
   claim_C9.2.2 "weird_reason" "abc" (by decide)⟩

/-- Claim C4: every start request containing userId, subscriptionId, reason
and reasonText yields a 200 whose conversation has status active, outcome
null, createdAt equal to updatedAt, and a singleton messages list whose
message has sender ai and the new conversation's id; the same conversation
and message records are persisted to the store. -/
theorem claim_C4 (env : StartEnv) (uid sid reason rtext : String) (s : Store) :
    ∃ (conv : Conversation) (m : Message),
      (start_conversation_handler env (some ⟨some uid, some sid, some reason, some rtext⟩) s).1 =
        create_response 200 (.conversationData conv [m]) ∧
      conv.status = "active" ∧ conv.outcome = none ∧ conv.createdAt = conv.updatedAt ∧
      m.sender = "ai" ∧ m.conversationId = conv.id ∧
      lookupConversation
        (start_conversation_handler env (some ⟨some uid, some sid, some reason, some rtext⟩) s).2
        conv.id = some conv ∧
      m ∈ (start_conversation_handler env
        (some ⟨some uid, some sid, some reason, some rtext⟩) s).2.messages := by
  refine ⟨⟨env.conversationId, uid, sid, "active", none, reason, rtext, env.timestamp,
    env.timestamp⟩,
    ⟨env.messageId, env.conversationId, generate_initial_message reason rtext, "ai",
      env.timestamp⟩, rfl, rfl, rfl, rfl, rfl, rfl, ?_, ?_⟩
  · exact lookupConversation_putConversation _ _
  · simp [start_conversation_handler, putMessage]

/-- The conversation-table invariant: outcome is null iff status is active. -/
def ConvInv (s : Store) : Prop :=
  ∀ c ∈ s.conversations, (c.outcome = none ↔ c.status = "active")

/-- Putting a conversation that satisfies the invariant preserves it. -/
theorem convInv_putConversation (s : Store) (c : Conversation)
    (hc : c.outcome = none ↔ c.status = "active") (h : ConvInv s) :
    ConvInv (putConversation s c) := by
  intro x hx
  rcases List.mem_append.mp hx with hx | hx
  · exact h x (List.mem_filter.mp hx).1
  · rcases List.mem_singleton.mp hx with rfl
    exact hc

/-- The updatedAt touch preserves the invariant. -/
theorem convInv_touch (s : Store) (cid ts : String) (h : ConvInv s) :
    ConvInv (touchConversation s cid ts) := by
  intro x hx
  rcases List.mem_map.mp hx with ⟨c, hc, rfl⟩
  by_cases hcid : c.id = cid
  · simpa [hcid] using h c hc
  · simpa [hcid] using h c hc

/-- The close-out update (status completed, non-null outcome) preserves the
invariant. -/
theorem convInv_updateStatus (s : Store) (cid : String) (out : String) (ts : String)
    (h : ConvInv s) :
    ConvInv (updateConversationStatus s cid "completed" (some out) ts) := by
  intro x hx
  rcases List.mem_map.mp hx with ⟨c, hc, rfl⟩
  by_cases hcid : c.id = cid
  · simp [hcid]
  · simpa [hcid] using h c hc

/-- Claim C2: the invariant that outcome is null iff status is active is
preserved by every run of each of the four handlers: the start handler
creates conversations with status active and outcome null, the offer
handler's close-out sets status completed together with a non-null outcome,
and no other handler changes status or outcome. -/
theorem claim_C2 :
    (∀ (env : StartEnv) (ev : Option StartBody) (s : Store), ConvInv s →
      ConvInv (start_conversation_handler env ev s).2) ∧
    (∀ (f : Faults) (env : SendEnv) (ev : Option SendBody) (s : Store), ConvInv s →
      ConvInv (send_message_handler f env ev s).2) ∧
    (∀ (env : OfferEnv) (ev : Option OfferBody) (s : Store), ConvInv s →
      ConvInv (handle_offer_handler env ev s).2) ∧
    (∀ (ev : Option String) (s : Store), ConvInv s →
      ConvInv (get_conversation_handler ev s).2) := by
  refine ⟨?_, ?_, ?_, ?_⟩
  · intro env ev s h
    obtain _ | ⟨(_ | u), (_ | si), (_ | re), (_ | rt)⟩ := ev
    all_goals try exact h
    exact convInv_putConversation _ _ (by simp) h
  · intro f env ev s h
    obtain _ | ⟨(_ | cid), (_ | msg), (_ | uid)⟩ := ev
    all_goals try exact h
    simp only [send_message_handler]
    repeat' split
    all_goals first
      | exact h
      | exact convInv_touch _ _ _ h
  · intro env ev s h
    obtain _ | ⟨(_ | cid), (_ | oid), (_ | act), (_ | uid)⟩ := ev
    all_goals try exact h
    simp only [handle_offer_handler]
    repeat' split
    all_goals first
      | exact h
      | exact convInv_updateStatus _ _ _ _ h
  · intro ev s h
    obtain _ | cid := ev
    · exact h
    · simp only [get_conversation_handler]
      repeat' split
      all_goals exact h

/-- Witness for claim C2: the invariant holds after a concrete start run on
the empty store. -/
theorem claim_C2_witness :
    ConvInv (start_conversation_handler ⟨"conv1", "msg1", "t1"⟩
      (some ⟨some "user1", some "sub1", some "too_expensive", some "costly"⟩)
      ⟨[], [], []⟩).2 :=
  claim_C2.1 ⟨"conv1", "msg1", "t1"⟩
    (some ⟨some "user1", some "sub1", some "too_expensive", some "costly"⟩)
    ⟨[], [], []⟩ (by intro c hc; exact absurd hc (List.not_mem_nil c))

/-- A message just put is among the stored messages. -/
theorem mem_putMessage_self (s : Store) (m : Message) : m ∈ (putMessage s m).messages := by
  simp [putMessage]

/-- A stored message with a different id survives a put. -/
theorem mem_putMessage_other (s : Store) (m m' : Message) (h : m ∈ s.messages)
    (hne : m.id ≠ m'.id) : m ∈ (putMessage s m').messages := by
  simp only [putMessage, List.mem_append, List.mem_filter]
  exact Or.inl ⟨h, by simpa using hne⟩

/-- Claim C6: a request to the message handler or the offer handler whose
conversationId names an existing conversation stored under a different userId
yields a 404 Conversation not found and leaves the store unchanged. -/
theorem claim_C6 :
    (∀ (f : Faults) (env : SendEnv) (cid msg uid : String) (s : Store) (c : Conversation),
      lookupConversation s cid = some c → c.userId ≠ uid →
      send_message_handler f env (some ⟨some cid, some msg, some uid⟩) s =
        (create_response 404 (.errorMsg "Conversation not found"), s)) ∧
    (∀ (env : OfferEnv) (cid oid act uid : String) (s : Store) (c : Conversation),
      (act = "accept" ∨ act = "reject") →
      lookupConversation s cid = some c → c.userId ≠ uid →
      handle_offer_handler env (some ⟨some cid, some oid, some act, some uid⟩) s =
        (create_response 404 (.errorMsg "Conversation not found"), s)) := by
  constructor
  · intro f env cid msg uid s c hc hu
    have hg : get_conversation f s cid uid = none := by
      unfold get_conversation
      split
      · rfl
      · rw [hc]
        simp [hu]
    simp [send_message_handler, hg]
  · intro env cid oid act uid s c hact hc hu
    simp only [handle_offer_handler]
    rw [if_neg (not_not_intro hact), hc]
    simp [hu]

/-- Witness for claim C6: a concrete mismatched-owner request to each handler. -/
theorem claim_C6_witness :
    send_message_handler noFaults ⟨"um1", "am1", "t2", 0, 1 / 2, "off1", "t3", "t9", 0⟩
        (some ⟨some "conv1", some "hi", some "user2"⟩)
        ⟨[⟨"conv1", "user1", "sub1", "active", none, "other", "x", "t0", "t0"⟩], [], []⟩ =
      (create_response 404 (.errorMsg "Conversation not found"),
        ⟨[⟨"conv1", "user1", "sub1", "active", none, "other", "x", "t0", "t0"⟩], [], []⟩) ∧
    handle_offer_handler ⟨"m9", "t2", 0⟩
        (some ⟨some "conv1", some "off1", some "accept", some "user2"⟩)
        ⟨[⟨"conv1", "user1", "sub1", "active", none, "other", "x", "t0", "t0"⟩], [], []⟩ =
      (create_response 404 (.errorMsg "Conversation not found"),
        ⟨[⟨"conv1", "user1", "sub1", "active", none, "other", "x", "t0", "t0"⟩], [], []⟩) :=
  ⟨claim_C6.1 noFaults ⟨"um1", "am1", "t2", 0, 1 / 2, "off1", "t3", "t9", 0⟩ "conv1" "hi" "user2"
      ⟨[⟨"conv1", "user1", "sub1", "active", none, "other", "x", "t0", "t0"⟩], [], []⟩
      ⟨"conv1", "user1", "sub1", "active", none, "other", "x", "t0", "t0"⟩ (by decide) (by decide),
   claim_C6.2 ⟨"m9", "t2", 0⟩ "conv1" "off1" "accept" "user2"
      ⟨[⟨"conv1", "user1", "sub1", "active", none, "other", "x", "t0", "t0"⟩], [], []⟩
      ⟨"conv1", "user1", "sub1", "active", none, "other", "x", "t0", "t0"⟩ (Or.inl rfl)
      (by decide) (by decide)⟩

/-- Claim C8: in every successful message-handler request the persisted user
message and AI message carry the same timestamp, which is also written to the
conversation's updatedAt. -/
theorem claim_C8 (env : SendEnv) (cid msg uid : String) (s : Store) (c : Conversation)
    (hc : lookupConversation s cid = some c) (hu : c.userId = uid)
    (hids : env.userMessageId ≠ env.aiMessageId) :
    (send_message_handler noFaults env (some ⟨some cid, some msg, some uid⟩) s).1.statusCode
      = 200 ∧
    (∃ mu ∈ (send_message_handler noFaults env (some ⟨some cid, some msg, some uid⟩) s).2.messages,
      mu.id = env.userMessageId ∧ mu.sender = "user" ∧ mu.timestamp = env.timestamp) ∧
    (∃ ma ∈ (send_message_handler noFaults env (some ⟨some cid, some msg, some uid⟩) s).2.messages,
      ma.id = env.aiMessageId ∧ ma.sender = "ai" ∧ ma.timestamp = env.timestamp) ∧
    lookupConversation
      (send_message_handler noFaults env (some ⟨some cid, some msg, some uid⟩) s).2 cid =
      some { c with updatedAt := env.timestamp } := by
  have hg : get_conversation noFaults s cid uid = some c := by
    simp [get_conversation, noFaults, hc, hu]
  have hmu : (⟨env.userMessageId, cid, msg, "user", env.timestamp⟩ : Message) ∈
      (putMessage (putMessage s ⟨env.userMessageId, cid, msg, "user", env.timestamp⟩)
        ⟨env.aiMessageId, cid, generate_ai_response msg env.replyChoice, "ai",
          env.timestamp⟩).messages :=
    mem_putMessage_other _ _ _ (mem_putMessage_self _ _) hids
  have hma : (⟨env.aiMessageId, cid, generate_ai_response msg env.replyChoice, "ai",
      env.timestamp⟩ : Message) ∈
      (putMessage (putMessage s ⟨env.userMessageId, cid, msg, "user", env.timestamp⟩)
        ⟨env.aiMessageId, cid, generate_ai_response msg env.replyChoice, "ai",
          env.timestamp⟩).messages :=
    mem_putMessage_self _ _
  by_cases hsg : should_generate_offer
      (countMessagesByConversation
        (putMessage (putMessage s ⟨env.userMessageId, cid, msg, "user", env.timestamp⟩)
          ⟨env.aiMessageId, cid, generate_ai_response msg env.replyChoice, "ai",
            env.timestamp⟩) cid)
      msg env.offerDraw = true
  · have hrun : send_message_handler noFaults env (some ⟨some cid, some msg, some uid⟩) s =
        (create_response 200 (.messageData
          ⟨env.aiMessageId, cid, generate_ai_response msg env.replyChoice, "ai", env.timestamp⟩
          (some (generate_retention_offer env.offerId env.offerTimestamp env.offerExpiresAt
            env.offerChoice cid c))),
         touchConversation
           (putOffer
             (putMessage (putMessage s ⟨env.userMessageId, cid, msg, "user", env.timestamp⟩)
               ⟨env.aiMessageId, cid, generate_ai_response msg env.replyChoice, "ai",
                 env.timestamp⟩)
             (generate_retention_offer env.offerId env.offerTimestamp env.offerExpiresAt
               env.offerChoice cid c))
           cid env.timestamp) := by
      simp [send_message_handler, get_conversation, get_message_count, noFaults, hc, hu, hsg]
    rw [hrun]
    exact ⟨rfl, ⟨_, hmu, rfl, rfl, rfl⟩, ⟨_, hma, rfl, rfl, rfl⟩,
      lookupConversation_touch _ _ _ _ hc⟩
  · have hrun : send_message_handler noFaults env (some ⟨some cid, some msg, some uid⟩) s =
        (create_response 200 (.messageData
          ⟨env.aiMessageId, cid, generate_ai_response msg env.replyChoice, "ai", env.timestamp⟩
          none),
         touchConversation
           (putMessage (putMessage s ⟨env.userMessageId, cid, msg, "user", env.timestamp⟩)
             ⟨env.aiMessageId, cid, generate_ai_response msg env.replyChoice, "ai",
               env.timestamp⟩)
           cid env.timestamp) := by
      simp [send_message_handler, get_conversation, get_message_count, noFaults, hc, hu, hsg]
    rw [hrun]
    exact ⟨rfl, ⟨_, hmu, rfl, rfl, rfl⟩, ⟨_, hma, rfl, rfl, rfl⟩,
      lookupConversation_touch _ _ _ _ hc⟩

/-- Witness for claim C8 at a concrete store and request. -/
theorem claim_C8_witness :
    (send_message_handler noFaults ⟨"um1", "am1", "t2", 0, 1 / 2, "off1", "t3", "t9", 0⟩
        (some ⟨some "conv1", some "hi", some "user1"⟩)
        ⟨[⟨"conv1", "user1", "sub1", "active", none, "other", "x", "t0", "t0"⟩], [],
          []⟩).1.statusCode = 200 ∧
    (∃ mu ∈ (send_message_handler noFaults ⟨"um1", "am1", "t2", 0, 1 / 2, "off1", "t3", "t9", 0⟩
        (some ⟨some "conv1", some "hi", some "user1"⟩)
        ⟨[⟨"conv1", "user1", "sub1", "active", none, "other", "x", "t0", "t0"⟩], [],
          []⟩).2.messages,
      mu.id = "um1" ∧ mu.sender = "user" ∧ mu.timestamp = "t2") ∧
    (∃ ma ∈ (send_message_handler noFaults ⟨"um1", "am1", "t2", 0, 1 / 2, "off1", "t3", "t9", 0⟩
        (some ⟨some "conv1", some "hi", some "user1"⟩)
        ⟨[⟨"conv1", "user1", "sub1", "active", none, "other", "x", "t0", "t0"⟩], [],
          []⟩).2.messages,
      ma.id = "am1" ∧ ma.sender = "ai" ∧ ma.timestamp = "t2") ∧
    lookupConversation
      (send_message_handler noFaults ⟨"um1", "am1", "t2", 0, 1 / 2, "off1", "t3", "t9", 0⟩
        (some ⟨some "conv1", some "hi", some "user1"⟩)
        ⟨[⟨"conv1", "user1", "sub1", "active", none, "other", "x", "t0", "t0"⟩], [], []⟩).2
      "conv1" =
      some ⟨"conv1", "user1", "sub1", "active", none, "other", "x", "t0", "t2"⟩ :=
  claim_C8 ⟨"um1", "am1", "t2", 0, 1 / 2, "off1", "t3", "t9", 0⟩ "conv1" "hi" "user1"
    ⟨[⟨"conv1", "user1", "sub1", "active", none, "other", "x", "t0", "t0"⟩], [], []⟩
    ⟨"conv1", "user1", "sub1", "active", none, "other", "x", "t0", "t0"⟩
    (by decide) (by decide) (by decide)

/-- Characterization of a successful offer-handler run: with a matching
conversation, a matching pending offer and a valid action, the handler
updates the offer status, closes out the conversation and appends the
closing AI message. -/
theorem offer_success_run (env : OfferEnv) (s : Store) (cid oid uid act : String)
    (c : Conversation) (o : Offer) (hact : act = "accept" ∨ act = "reject")
    (hc : lookupConversation s cid = some c) (hu : c.userId = uid)
    (ho : lookupOffer s oid = some o) (hoc : o.conversationId = cid)
    (hos : o.status = "pending") :
    handle_offer_handler env (some ⟨some cid, some oid, some act, some uid⟩) s =
      (create_response 200 (.offerResult (if act = "accept" then "retained" else "cancelled")
        ⟨env.messageId, cid, generate_final_message act o env.replyChoice, "ai",
          env.timestamp⟩),
       putMessage
         (updateConversationStatus
           (updateOfferStatus s oid (if act = "accept" then "accepted" else "rejected")
             env.timestamp)
           cid "completed" (some (if act = "accept" then "retained" else "cancelled"))
           env.timestamp)
         ⟨env.messageId, cid, generate_final_message act o env.replyChoice, "ai",
           env.timestamp⟩) := by
  rcases hact with rfl | rfl <;> simp [handle_offer_handler, hc, hu, ho, hoc, hos]

/-- Claim C3: for two serialized accept calls on the same pending offer, the
first returns 200 with outcome retained, marks the offer accepted and closes
the conversation as retained; the second returns 400 Offer is no longer
available and changes nothing. -/
theorem claim_C3 (env1 env2 : OfferEnv) (s : Store) (cid oid uid : String)
    (c : Conversation) (o : Offer)
    (hc : lookupConversation s cid = some c) (hu : c.userId = uid)
    (ho : lookupOffer s oid = some o) (hoc : o.conversationId = cid)
    (hos : o.status = "pending") :
    (handle_offer_handler env1 (some ⟨some cid, some oid, some "accept", some uid⟩) s).1.statusCode
      = 200 ∧
    (∃ m, (handle_offer_handler env1 (some ⟨some cid, some oid, some "accept", some uid⟩) s).1.body
      = .offerResult "retained" m) ∧
    lookupOffer
      (handle_offer_handler env1 (some ⟨some cid, some oid, some "accept", some uid⟩) s).2 oid =
      some { o with status := "accepted", updatedAt := some env1.timestamp } ∧
    lookupConversation
      (handle_offer_handler env1 (some ⟨some cid, some oid, some "accept", some uid⟩) s).2 cid =
      some { c with
        status := "completed"
        outcome := some "retained"
        updatedAt := env1.timestamp } ∧
    handle_offer_handler env2 (some ⟨some cid, some oid, some "accept", some uid⟩)
      (handle_offer_handler env1 (some ⟨some cid, some oid, some "accept", some uid⟩) s).2 =
      (create_response 400 (.errorMsg "Offer is no longer available"),
       (handle_offer_handler env1 (some ⟨some cid, some oid, some "accept", some uid⟩) s).2) := by
  have h1 := offer_success_run env1 s cid oid uid "accept" c o (Or.inl rfl) hc hu ho hoc hos
  simp only [if_pos rfl] at h1
  rw [h1]
  have ho2 : lookupOffer
      (putMessage
        (updateConversationStatus (updateOfferStatus s oid "accepted" env1.timestamp)
          cid "completed" (some "retained") env1.timestamp)
        ⟨env1.messageId, cid, generate_final_message "accept" o env1.replyChoice, "ai",
          env1.timestamp⟩) oid =
      some { o with status := "accepted", updatedAt := some env1.timestamp } :=
    lookupOffer_update s oid "accepted" env1.timestamp o ho
  have hc2 : lookupConversation
      (putMessage
        (updateConversationStatus (updateOfferStatus s oid "accepted" env1.timestamp)
          cid "completed" (some "retained") env1.timestamp)
        ⟨env1.messageId, cid, generate_final_message "accept" o env1.replyChoice, "ai",
          env1.timestamp⟩) cid =
      some { c with
        status := "completed"
        outcome := some "retained"
        updatedAt := env1.timestamp } :=
    lookupConversation_update (updateOfferStatus s oid "accepted" env1.timestamp) cid
      "completed" env1.timestamp (some "retained") c hc
  refine ⟨rfl, ⟨_, rfl⟩, ho2, hc2, ?_⟩
  simp [handle_offer_handler, hc2, ho2, hu, hoc]

/-- Witness for claim C3 at a concrete store: one pending offer, two
serialized accept calls. -/
theorem claim_C3_witness :
    (handle_offer_handler ⟨"fm1", "t5", 0⟩
      (some ⟨some "conv1", some "off1", some "accept", some "user1"⟩)
      ⟨[⟨"conv1", "user1", "sub1", "active", none, "other", "x", "t0", "t0"⟩], [],
        [⟨"off1", "conv1", "discount", "40% Off for 4 Months", "d", ⟨12, 48⟩,
          ⟨some 29.99, some 17.99, none, none⟩, [], "t9", "t4", "pending", none⟩]⟩).1.statusCode
      = 200 ∧
    (∃ m, (handle_offer_handler ⟨"fm1", "t5", 0⟩
      (some ⟨some "conv1", some "off1", some "accept", some "user1"⟩)
      ⟨[⟨"conv1", "user1", "sub1", "active", none, "other", "x", "t0", "t0"⟩], [],
        [⟨"off1", "conv1", "discount", "40% Off for 4 Months", "d", ⟨12, 48⟩,
          ⟨some 29.99, some 17.99, none, none⟩, [], "t9", "t4", "pending", none⟩]⟩).1.body
      = .offerResult "retained" m) ∧
    lookupOffer (handle_offer_handler ⟨"fm1", "t5", 0⟩
      (some ⟨some "conv1", some "off1", some "accept", some "user1"⟩)
      ⟨[⟨"conv1", "user1", "sub1", "active", none, "other", "x", "t0", "t0"⟩], [],
        [⟨"off1", "conv1", "discount", "40% Off for 4 Months", "d", ⟨12, 48⟩,
          ⟨some 29.99, some 17.99, none, none⟩, [], "t9", "t4", "pending", none⟩]⟩).2 "off1" =
      some ⟨"off1", "conv1", "discount", "40% Off for 4 Months", "d", ⟨12, 48⟩,
        ⟨some 29.99, some 17.99, none, none⟩, [], "t9", "t4", "accepted", some "t5"⟩ ∧
    lookupConversation (handle_offer_handler ⟨"fm1", "t5", 0⟩
      (some ⟨some "conv1", some "off1", some "accept", some "user1"⟩)
      ⟨[⟨"conv1", "user1", "sub1", "active", none, "other", "x", "t0", "t0"⟩], [],
        [⟨"off1", "conv1", "discount", "40% Off for 4 Months", "d", ⟨12, 48⟩,
          ⟨some 29.99, some 17.99, none, none⟩, [], "t9", "t4", "pending", none⟩]⟩).2 "conv1" =
      some ⟨"conv1", "user1", "sub1", "completed", some "retained", "other", "x", "t0", "t5"⟩ ∧
    handle_offer_handler ⟨"fm2", "t6", 1⟩
      (some ⟨some "conv1", some "off1", some "accept", some "user1"⟩)
      (handle_offer_handler ⟨"fm1", "t5", 0⟩
        (some ⟨some "conv1", some "off1", some "accept", some "user1"⟩)
        ⟨[⟨"conv1", "user1", "sub1", "active", none, "other", "x", "t0", "t0"⟩], [],
          [⟨"off1", "conv1", "discount", "40% Off for 4 Months", "d", ⟨12, 48⟩,
            ⟨some 29.99, some 17.99, none, none⟩, [], "t9", "t4", "pending", none⟩]⟩).2 =
      (create_response 400 (.errorMsg "Offer is no longer available"),
       (handle_offer_handler ⟨"fm1", "t5", 0⟩
        (some ⟨some "conv1", some "off1", some "accept", some "user1"⟩)
        ⟨[⟨"conv1", "user1", "sub1", "active", none, "other", "x", "t0", "t0"⟩], [],
          [⟨"off1", "conv1", "discount", "40% Off for 4 Months", "d", ⟨12, 48⟩,
            ⟨some 29.99, some 17.99, none, none⟩, [], "t9", "t4", "pending", none⟩]⟩).2) :=
  claim_C3 ⟨"fm1", "t5", 0⟩ ⟨"fm2", "t6", 1⟩
    ⟨[⟨"conv1", "user1", "sub1", "active", none, "other", "x", "t0", "t0"⟩], [],
      [⟨"off1", "conv1", "discount", "40% Off for 4 Months", "d", ⟨12, 48⟩,
        ⟨some 29.99, some 17.99, none, none⟩, [], "t9", "t4", "pending", none⟩]⟩
    "conv1" "off1" "user1"
    ⟨"conv1", "user1", "sub1", "active", none, "other", "x", "t0", "t0"⟩
    ⟨"off1", "conv1", "discount", "40% Off for 4 Months", "d", ⟨12, 48⟩,
      ⟨some 29.99, some 17.99, none, none⟩, [], "t9", "t4", "pending", none⟩
    rfl rfl rfl rfl rfl

/-- Claim C10: the offer handler never checks the conversation's status; a
valid accept or reject against a still-pending offer of an already completed
conversation succeeds with 200 and overwrites the conversation's status and
outcome. -/
theorem claim_C10 (env : OfferEnv) (s : Store) (cid oid uid act : String)
    (c : Conversation) (o : Offer) (hact : act = "accept" ∨ act = "reject")
    (hc : lookupConversation s cid = some c) (hu : c.userId = uid)
    (hstatus : c.status = "completed") (houtcome : c.outcome = some "cancelled")
    (ho : lookupOffer s oid = some o) (hoc : o.conversationId = cid)
    (hos : o.status = "pending") :
    (handle_offer_handler env (some ⟨some cid, some oid, some act, some uid⟩) s).1.statusCode
      = 200 ∧
    lookupConversation
      (handle_offer_handler env (some ⟨some cid, some oid, some act, some uid⟩) s).2 cid =
      some { c with
        status := "completed"
        outcome := some (if act = "accept" then "retained" else "cancelled")
        updatedAt := env.timestamp } := by
  have h1 := offer_success_run env s cid oid uid act c o hact hc hu ho hoc hos
  rw [h1]
  exact ⟨rfl, lookupConversation_update _ _ _ _ _ _ hc⟩

/-- Witness for claim C10: an accept against a pending offer of a
conversation already closed with outcome cancelled flips it to retained. -/
theorem claim_C10_witness :
    (handle_offer_handler ⟨"fm1", "t5", 0⟩
      (some ⟨some "conv1", some "off1", some "accept", some "user1"⟩)
      ⟨[⟨"conv1", "user1", "sub1", "completed", some "cancelled", "other", "x", "t0", "t0"⟩], [],
        [⟨"off1", "conv1", "discount", "40% Off for 4 Months", "d", ⟨12, 48⟩,
          ⟨some 29.99, some 17.99, none, none⟩, [], "t9", "t4", "pending", none⟩]⟩).1.statusCode
      = 200 ∧
    lookupConversation (handle_offer_handler ⟨"fm1", "t5", 0⟩
      (some ⟨some "conv1", some "off1", some "accept", some "user1"⟩)
      ⟨[⟨"conv1", "user1", "sub1", "completed", some "cancelled", "other", "x", "t0", "t0"⟩], [],
        [⟨"off1", "conv1", "discount", "40% Off for 4 Months", "d", ⟨12, 48⟩,
          ⟨some 29.99, some 17.99, none, none⟩, [], "t9", "t4", "pending", none⟩]⟩).2 "conv1" =
      some ⟨"conv1", "user1", "sub1", "completed",
        some (if "accept" = "accept" then "retained" else "cancelled"), "other", "x", "t0",
        "t5"⟩ :=
  claim_C10 ⟨"fm1", "t5", 0⟩
    ⟨[⟨"conv1", "user1", "sub1", "completed", some "cancelled", "other", "x", "t0", "t0"⟩], [],
      [⟨"off1", "conv1", "discount", "40% Off for 4 Months", "d", ⟨12, 48⟩,
        ⟨some 29.99, some 17.99, none, none⟩, [], "t9", "t4", "pending", none⟩]⟩
    "conv1" "off1" "user1" "accept"
    ⟨"conv1", "user1", "sub1", "completed", some "cancelled", "other", "x", "t0", "t0"⟩
    ⟨"off1", "conv1", "discount", "40% Off for 4 Months", "d", ⟨12, 48⟩,
      ⟨some 29.99, some 17.99, none, none⟩, [], "t9", "t4", "pending", none⟩
    (Or.inl rfl) rfl rfl rfl rfl rfl rfl rfl

/-- Counterexample to claim C1: on a store holding 1 prior message of the
conversation, a successful send run passes message count 3 — not the
pre-request count 1 — to the offer-eligibility check: the count query runs
after the two puts of this request and observes both new messages. -/
theorem claim_C1_counterexample :
    sendMessageCountUsed noFaults ⟨"um1", "am1", "t2", 0, 1 / 10, "off1", "t3", "t9", 0⟩
        (some ⟨some "conv1", some "hello", some "user1"⟩)
        ⟨[⟨"conv1", "user1", "sub1", "active", none, "other", "x", "t0", "t0"⟩],
         [⟨"m1", "conv1", "a", "ai", "t0"⟩], []⟩ =
      some 3 ∧
    countMessagesByConversation
        ⟨[⟨"conv1", "user1", "sub1", "active", none, "other", "x", "t0", "t0"⟩],
         [⟨"m1", "conv1", "a", "ai", "t0"⟩], []⟩ "conv1"
      = 1 ∧
    sendMessageCountUsed noFaults ⟨"um1", "am1", "t2", 0, 1 / 10, "off1", "t3", "t9", 0⟩
        (some ⟨some "conv1", some "hello", some "user1"⟩)
        ⟨[⟨"conv1", "user1", "sub1", "active", none, "other", "x", "t0", "t0"⟩],
         [⟨"m1", "conv1", "a", "ai", "t0"⟩], []⟩ ≠
      some (countMessagesByConversation
        ⟨[⟨"conv1", "user1", "sub1", "active", none, "other", "x", "t0", "t0"⟩],
         [⟨"m1", "conv1", "a", "ai", "t0"⟩], []⟩ "conv1") ∧
    (send_message_handler noFaults ⟨"um1", "am1", "t2", 0, 1 / 10, "off1", "t3", "t9", 0⟩
        (some ⟨some "conv1", some "hello", some "user1"⟩)
        ⟨[⟨"conv1", "user1", "sub1", "active", none, "other", "x", "t0", "t0"⟩],
         [⟨"m1", "conv1", "a", "ai", "t0"⟩],
         []⟩).1.statusCode = 200 :=
  ⟨by decide, by decide, by decide, by decide⟩

/-- Claim C1, amended: in every successful send run with fresh message ids,
the count passed to should_generate_offer is the post-write count: the
pre-request message count plus the two messages persisted by this request. -/
theorem claim_C1_amended (env : SendEnv) (cid msg uid : String) (s : Store) (c : Conversation)
    (hc : lookupConversation s cid = some c) (hu : c.userId = uid)
    (hids : env.userMessageId ≠ env.aiMessageId)
    (hfresh : ∀ m ∈ s.messages, m.id ≠ env.userMessageId ∧ m.id ≠ env.aiMessageId) :
    sendMessageCountUsed noFaults env (some ⟨some cid, some msg, some uid⟩) s =
      some (countMessagesByConversation s cid + 2) := by
  have hg : get_conversation ⟨false, false, false, false, false, false⟩ s cid uid = some c := by
    simp [get_conversation, hc, hu]
  have h1 : countMessagesByConversation
      (putMessage s ⟨env.userMessageId, cid, msg, "user", env.timestamp⟩) cid =
      countMessagesByConversation s cid + 1 :=
    count_putMessage_fresh s _ cid (fun m' hm' => (hfresh m' hm').1) rfl
  have h2 : countMessagesByConversation
      (putMessage (putMessage s ⟨env.userMessageId, cid, msg, "user", env.timestamp⟩)
        ⟨env.aiMessageId, cid, generate_ai_response msg env.replyChoice, "ai",
          env.timestamp⟩) cid =
      countMessagesByConversation
        (putMessage s ⟨env.userMessageId, cid, msg, "user", env.timestamp⟩) cid + 1 := by
    apply count_putMessage_fresh _ _ cid _ rfl
    intro m' hm'
    rcases List.mem_append.mp hm' with hm | hm
    · exact (hfresh m' (List.mem_filter.mp hm).1).2
    · rcases List.mem_singleton.mp hm with rfl
      exact hids
  simp [sendMessageCountUsed, noFaults, hg, get_message_count, h2, h1]

/-- Witness for the amended claim C1 at a concrete store with 2 prior
messages: the count used is 2 + 2. -/
theorem claim_C1_witness :
    sendMessageCountUsed noFaults ⟨"um1", "am1", "t2", 0, 1 / 10, "off1", "t3", "t9", 0⟩
        (some ⟨some "conv9", some "hey", some "user9"⟩)
        ⟨[⟨"conv9", "user9", "sub9", "active", none, "other", "x", "t0", "t0"⟩],
         [⟨"m1", "conv9", "a", "ai", "t0"⟩, ⟨"m2", "conv9", "b", "user", "t1"⟩], []⟩ =
      some (countMessagesByConversation
        ⟨[⟨"conv9", "user9", "sub9", "active", none, "other", "x", "t0", "t0"⟩],
         [⟨"m1", "conv9", "a", "ai", "t0"⟩, ⟨"m2", "conv9", "b", "user", "t1"⟩], []⟩ "conv9"
        + 2) :=
  claim_C1_amended ⟨"um1", "am1", "t2", 0, 1 / 10, "off1", "t3", "t9", 0⟩ "conv9" "hey" "user9"
    ⟨[⟨"conv9", "user9", "sub9", "active", none, "other", "x", "t0", "t0"⟩],
     [⟨"m1", "conv9", "a", "ai", "t0"⟩, ⟨"m2", "conv9", "b", "user", "t1"⟩], []⟩
    ⟨"conv9", "user9", "sub9", "active", none, "other", "x", "t0", "t0"⟩
    rfl rfl (by decide) (by decide)

/-- Counterexample to claim C7: a store failure of the conversation lookup in
the message handler is swallowed by get_conversation and surfaces as a 404
Conversation not found — not as a 500 — even though the conversation exists
and belongs to the caller. -/
theorem claim_C7_counterexample :
    (send_message_handler ⟨true, false, false, false, false, false⟩
        ⟨"um1", "am1", "t2", 0, 1 / 10, "off1", "t3", "t9", 0⟩
        (some ⟨some "conv1", some "hello", some "user1"⟩)
        ⟨[⟨"conv1", "user1", "sub1", "active", none, "other", "x", "t0", "t0"⟩], [], []⟩).1 =
      create_response 404 (.errorMsg "Conversation not found") ∧
    lookupConversation
        ⟨[⟨"conv1", "user1", "sub1", "active", none, "other", "x", "t0", "t0"⟩], [], []⟩
        "conv1" =
      some ⟨"conv1", "user1", "sub1", "active", none, "other", "x", "t0", "t0"⟩ :=
  ⟨by decide, by decide⟩

/-- Claim C7, amended: in the message handler only store failures that reach
the handler body (the two message puts and the conversation update) produce
the 500 Internal server error; a failed conversation lookup is swallowed into
a 404 Conversation not found, and a failed message-count query is swallowed
into count 0, yielding a 200 with no offer. -/
theorem claim_C7_amended :
    (∀ (f : Faults) (env : SendEnv) (cid msg uid : String) (s : Store) (c : Conversation),
      lookupConversation s cid = some c → c.userId = uid →
      f.getConversationFails = false →
      (f.putUserMessageFails = true ∨ f.putAiMessageFails = true ∨
        f.updateConversationFails = true) →
      (send_message_handler f env (some ⟨some cid, some msg, some uid⟩) s).1 =
        create_response 500 (.errorMsg "Internal server error")) ∧
    (∀ (f : Faults) (env : SendEnv) (cid msg uid : String) (s : Store),
      f.getConversationFails = true →
      send_message_handler f env (some ⟨some cid, some msg, some uid⟩) s =
        (create_response 404 (.errorMsg "Conversation not found"), s)) ∧
    (∀ (env : SendEnv) (cid msg uid : String) (s : Store) (c : Conversation),
      lookupConversation s cid = some c → c.userId = uid →
      (send_message_handler ⟨false, true, false, false, false, false⟩ env
        (some ⟨some cid, some msg, some uid⟩) s).1 =
        create_response 200 (.messageData
          ⟨env.aiMessageId, cid, generate_ai_response msg env.replyChoice, "ai", env.timestamp⟩
          none)) := by
  refine ⟨?_, ?_, ?_⟩
  · intro f env cid msg uid s c hc hu hgf hw
    have hg : get_conversation f s cid uid = some c := by
      simp [get_conversation, hgf, hc, hu]
    simp only [send_message_handler, hg]
    by_cases h1 : f.putUserMessageFails = true
    · simp [h1]
    · by_cases h2 : f.putAiMessageFails = true
      · simp [h1, h2]
      · have h3 : f.updateConversationFails = true := by tauto
        by_cases h4 : should_generate_offer
            (get_message_count f
              (putMessage (putMessage s ⟨env.userMessageId, cid, msg, "user", env.timestamp⟩)
                ⟨env.aiMessageId, cid, generate_ai_response msg env.replyChoice, "ai",
                  env.timestamp⟩) cid)
            msg env.offerDraw = true
        · by_cases h5 : f.putOfferFails = true
          · simp [h1, h2, h4, h5]
          · simp [h1, h2, h3, h4, h5]
        · simp [h1, h2, h3, h4]
  · intro f env cid msg uid s hgf
    have hg : get_conversation f s cid uid = none := by
      simp [get_conversation, hgf]
    simp [send_message_handler, hg]
  · intro env cid msg uid s c hc hu
    have hg : get_conversation ⟨false, true, false, false, false, false⟩ s cid uid = some c := by
      simp [get_conversation, hc, hu]
    simp [send_message_handler, hg, get_message_count, should_generate_offer]

/-- Witness for the amended claim C7: a failing ai-message put yields a 500,
a failing conversation lookup yields a 404 with the store unchanged, and a
failing count query yields a 200 with no offer. -/
theorem claim_C7_witness :
    (send_message_handler ⟨false, false, false, true, false, false⟩
        ⟨"um1", "am1", "t2", 0, 1 / 10, "off1", "t3", "t9", 0⟩
        (some ⟨some "conv1", some "hello", some "user1"⟩)
        ⟨[⟨"conv1", "user1", "sub1", "active", none, "other", "x", "t0", "t0"⟩], [], []⟩).1 =
      create_response 500 (.errorMsg "Internal server error") ∧
    send_message_handler ⟨true, false, false, false, false, false⟩
        ⟨"um1", "am1", "t2", 0, 1 / 10, "off1", "t3", "t9", 0⟩
        (some ⟨some "conv2", some "hello", some "user1"⟩) ⟨[], [], []⟩ =
      (create_response 404 (.errorMsg "Conversation not found"), ⟨[], [], []⟩) ∧
    (send_message_handler ⟨false, true, false, false, false, false⟩
        ⟨"um1", "am1", "t2", 0, 1 / 10, "off1", "t3", "t9", 0⟩
        (some ⟨some "conv1", some "hello", some "user1"⟩)
        ⟨[⟨"conv1", "user1", "sub1", "active", none, "other", "x", "t0", "t0"⟩], [], []⟩).1 =
      create_response 200 (.messageData
        ⟨"am1", "conv1", generate_ai_response "hello" 0, "ai", "t2"⟩ none) :=
  ⟨claim_C7_amended.1 ⟨false, false, false, true, false, false⟩
      ⟨"um1", "am1", "t2", 0, 1 / 10, "off1", "t3", "t9", 0⟩ "conv1" "hello" "user1"
      ⟨[⟨"conv1", "user1", "sub1", "active", none, "other", "x", "t0", "t0"⟩], [], []⟩
      ⟨"conv1", "user1", "sub1", "active", none, "other", "x", "t0", "t0"⟩
      rfl rfl rfl (Or.inr (Or.inl rfl)),
   claim_C7_amended.2.1 ⟨true, false, false, false, false, false⟩
      ⟨"um1", "am1", "t2", 0, 1 / 10, "off1", "t3", "t9", 0⟩ "conv2" "hello" "user1"
      ⟨[], [], []⟩ rfl,
   claim_C7_amended.2.2 ⟨"um1", "am1", "t2", 0, 1 / 10, "off1", "t3", "t9", 0⟩
      "conv1" "hello" "user1"
      ⟨[⟨"conv1", "user1", "sub1", "active", none, "other", "x", "t0", "t0"⟩], [], []⟩
      ⟨"conv1", "user1", "sub1", "active", none, "other", "x", "t0", "t0"⟩ rfl rfl⟩

end ChurnGuard
